import Mathlib

/-!
Verification of the clock appliance (clock.py / smallclock.py): settings
persistence, display scrolling, time rendering, and the menu state machine.

The embedding is shallow: each Python function is translated into a Lean
definition over explicit state.  Python integers are modelled as `Int`
(Python's `%` on a positive modulus agrees with `Int.emod`), the settings
file is modelled as an abstract state (missing / malformed / parsed data
with optional fields, mirroring `json.load` + `dict.get` with defaults),
and the interactive loops are modelled as one transition per received
input event, which is how the source behaves when events arrive one at a
time from the rotary-encoder thread.
-/

namespace Clock

/-- Settings record of `ClockSettings.__init__` (clock.py lines 19-26). -/
structure ClockSettings where
  brightness : Int
  timezone : String
  hour_24 : Bool
  flash_colon : Bool
deriving Repr, DecidableEq

/-- The defaults assigned in `ClockSettings.__init__` before `load()` runs. -/
def defaultSettings : ClockSettings :=
  { brightness := 0
    timezone := "America/Chicago"
    hour_24 := false
    flash_colon := true }

/-- Parsed content of the JSON settings file.  Each field is optional,
mirroring `data.get(key, default)` in `ClockSettings.load`. -/
structure FileData where
  brightness : Option Int
  timezone : Option String
  hour_24 : Option Bool
  flash_colon : Option Bool
deriving Repr, DecidableEq

/-- State of the settings file on disk: absent, unparseable, or parsed. -/
inductive FileState where
  | missing
  | malformed
  | ok (data : FileData)
deriving Repr, DecidableEq

/-- The record written by `ClockSettings.save` (clock.py lines 43-54):
all four fields of the current settings. -/
def ClockSettings.toData (s : ClockSettings) : FileData :=
  { brightness := some s.brightness
    timezone := some s.timezone
    hour_24 := some s.hour_24
    flash_colon := some s.flash_colon }

/-- `ClockSettings.save`: overwrite the file with the current settings. -/
def ClockSettings.save (s : ClockSettings) (_f : FileState) : FileState :=
  .ok s.toData

/-- `ClockSettings.load` (clock.py lines 28-41): a missing file and an
unparseable file both trigger `save()` of the current in-memory values;
a parsed file sets each field from the file, with the literal defaults
`0`, `"America/Chicago"`, `False`, `True` for absent keys.  Note that the
brightness read from the file is NOT clamped. -/
def ClockSettings.load (s : ClockSettings) (f : FileState) :
    ClockSettings × FileState :=
  match f with
  | .missing => (s, s.save f)
  | .malformed => (s, s.save f)
  | .ok d =>
      ({ brightness := d.brightness.getD 0
         timezone := d.timezone.getD "America/Chicago"
         hour_24 := d.hour_24.getD false
         flash_colon := d.flash_colon.getD true }, .ok d)

/-- `ClockSettings.__init__`: set the defaults, then `load()`. -/
def ClockSettings.init (f : FileState) : ClockSettings × FileState :=
  defaultSettings.load f

/-- `ClockSettings.increase_brightness` (clock.py lines 56-60). -/
def ClockSettings.increase_brightness (s : ClockSettings) : ClockSettings :=
  let b := s.brightness + 1
  { s with brightness := if b > 15 then 15 else b }

/-- `ClockSettings.decrease_brightness` (clock.py lines 62-66). -/
def ClockSettings.decrease_brightness (s : ClockSettings) : ClockSettings :=
  let b := s.brightness - 1
  { s with brightness := if b < 0 then 0 else b }

/-- The confirm handler in Clock state (clock.py lines 572-577): toggle
brightness between 0 and 15. -/
def ClockSettings.toggle_brightness (s : ClockSettings) : ClockSettings :=
  if s.brightness > 0 then { s with brightness := 0 }
  else { s with brightness := 15 }

/-- The brightness-affecting operations named by the spec's invariant. -/
inductive BrightnessOp where
  | inc
  | dec
  | toggle
  | reload
deriving Repr, DecidableEq

/-- Apply one brightness operation to the (settings, file) pair.
`reload` re-reads the settings file at its current content. -/
def applyBrightnessOp (sf : ClockSettings × FileState) (op : BrightnessOp) :
    ClockSettings × FileState :=
  match op with
  | .inc => (sf.1.increase_brightness, sf.2)
  | .dec => (sf.1.decrease_brightness, sf.2)
  | .toggle => (sf.1.toggle_brightness, sf.2)
  | .reload => sf.1.load sf.2

/-- A file state whose stored brightness (if stored at all) lies in
[0, 15].  Files written by `save` from in-range settings satisfy this. -/
def fileBrightOk : FileState → Bool
  | .ok d =>
      match d.brightness with
      | some b => decide (0 ≤ b ∧ b ≤ 15)
      | none => true
  | _ => true

/-! ### Display scrolling (`Display.display`, clock.py lines 180-201 and
smallclock.py lines 154-172; both files contain the same loop). -/

/-- Padding and truncation of `_write_four_chars`: `(s4 + "    ")[:4]`. -/
def padFour (s : List Char) : List Char :=
  (s ++ [' ', ' ', ' ', ' ']).take 4

/-- The sequence of frame writes emitted by `Display.display(text)`,
paired with whether a scroll delay follows that write.  Length ≤ 4 is a
single immediate write; otherwise the window start `i` runs from `0` to
`len - 4`, sleeping after every frame except the last. -/
def displayFrames (text : List Char) : List (List Char × Bool) :=
  let n := text.length
  if n ≤ 4 then [(padFour text, false)]
  else (List.range (n - 4 + 1)).map
    (fun i => (padFour ((text.drop i).take 4), decide (i < n - 4)))

/-! ### Time rendering (`display_time`, clock.py lines 203-221 and
smallclock.py lines 175-193).  The timezone-aware current time is an
external collaborator; hour, minute and second are passed in. -/

/-- The hour-format rule of `display_time`: in 12-hour mode take
`hour % 12` and map a result of 0 to 12. -/
def hour_for (hour_24_mode : Bool) (hour : Nat) : Nat :=
  if !hour_24_mode then
    let h := hour % 12
    if h = 0 then 12 else h
  else hour

/-- Python `f"{hour:2d}"`: right-align in width 2 with spaces. -/
def padHour (h : Nat) : String :=
  let s := toString h
  if s.length < 2 then " " ++ s else s

/-- Python `f"{minute:02d}"`: zero-pad to width 2. -/
def padMinute (m : Nat) : String :=
  let s := toString m
  if s.length < 2 then "0" ++ s else s

/-- `display_time`: returns the colon flag assigned to `disp.colon` and
the 4-character text handed to `disp.display`. -/
def display_time (s : ClockSettings) (hour minute second : Nat) :
    Bool × String :=
  let h := hour_for s.hour_24 hour
  let colon := if s.flash_colon then second % 2 == 0 else true
  (colon, padHour h ++ padMinute minute)

/-! ### The menu state machine (clock.py `__main__` loop, lines 538-624,
and the sub-screen functions `set_flash`, `set_24h`, `set_timezone`,
`set_wifi`, `display_ip_address`).

Only the rotary-encoder thread feeds the input queue (the keyboard thread
is commented out in `__main__`), so the event alphabet is exactly
up / down / left / right / confirm (`'\n'`).  Each interactive loop waits
for one event and handles it; the machine below performs one transition
per event and also records the display writes and sleeps the handled
iteration performs.  The deferred-save countdown of the main loop is not
modelled: the statement that would decrement-and-save it is syntactically
malformed in the source (`id save_time == 0:` on line 620) and it plays
no part in the event transitions. -/

/-- Input events produced by `poll_encoder`. -/
inductive Event where
  | up
  | down
  | left
  | right
  | confirm
deriving Repr, DecidableEq

/-- Result of a `subprocess.run` call: the call itself may raise, or it
returns an exit code. -/
inductive SubprocResult where
  | raised
  | returned (code : Int)
deriving Repr, DecidableEq

/-- External collaborators of `set_wifi` / `display_ip_address`: the
deduplicated sorted SSID scan result, the outcomes of the nmcli
`connection add` and `connection up` calls, and the wlan0 address. -/
structure Env where
  wifi : List String
  addResult : SubprocResult
  upResult : SubprocResult
  wlan0Ip : Option String
deriving Repr, DecidableEq

/-- `menu_items` of `__main__`. -/
def menu_items : List String := ["FLASH", "24H", "ZONE", "WIFI", "IP"]

/-- Keys of the `zones` dict of `set_timezone`, in insertion order. -/
def zoneNames : List String :=
  ["Eastern", "Central", "Mountain", "Pacific", "Alaska", "Hawaii", "UTC"]

/-- Values of the `zones` dict of `set_timezone`, in insertion order. -/
def zoneValues : List String :=
  ["America/New_York", "America/Chicago", "America/Denver",
   "America/Los_Angeles", "America/Anchorage", "America/Honolulu", "UTC"]

/-- The `symbols` dict of `set_wifi` (clock.py lines 298-323), in
insertion order: password characters paired with their display labels. -/
def wifiSymbols : List (Char × String) :=
  [('a', "↓A a"), ('b', "↓B b"), ('c', "↓C c"), ('d', "↓D d"),
   ('e', "↓E e"), ('f', "↓F f"), ('g', "↓G g"), ('h', "↓H h"),
   ('i', "↓I i"), ('j', "↓J j"), ('k', "↓K k"), ('l', "↓L l"),
   ('m', "↓M m"), ('n', "↓N n"), ('o', "↓O o"), ('p', "↓P p"),
   ('q', "↓Q q"), ('r', "↓R r"), ('s', "↓S s"), ('t', "↓T t"),
   ('u', "↓U u"), ('v', "↓V v"), ('w', "↓W w"), ('x', "↓X x"),
   ('y', "↓Y y"), ('z', "↓Z z"),
   ('1', "N  1"), ('2', "N  2"), ('3', "N  3"), ('4', "N  4"),
   ('5', "N  5"), ('6', "N  6"), ('7', "N  7"), ('8', "N  8"),
   ('9', "N  9"), ('0', "N  0"),
   ('A', "↑A A"), ('B', "↑B B"), ('C', "↑C C"), ('D', "↑D D"),
   ('E', "↑E E"), ('F', "↑F F"), ('G', "↑G G"), ('H', "↑H H"),
   ('I', "↑I I"), ('J', "↑J J"), ('K', "↑K K"), ('L', "↑L L"),
   ('M', "↑M M"), ('N', "↑N N"), ('O', "↑O O"), ('P', "↑P P"),
   ('Q', "↑Q Q"), ('R', "↑R R"), ('S', "↑S S"), ('T', "↑T T"),
   ('U', "↑U U"), ('V', "↑V V"), ('W', "↑W W"), ('X', "↑X X"),
   ('Y', "↑Y Y"), ('Z', "↑Z Z"),
   ('-', "   -"), ('_', "   _"), ('[', "LB ["), (']', "RB ]"),
   ('!', "↑1 !"), ('@', "↑2 @"), ('#', "↑3 #"), ('$', "↑4 $"),
   ('%', "↑5 %"), ('^', "↑6 ^"), ('&', "↑7 &"), ('*', "↑8 *"),
   ('(', "↑9 ("), (')', "↑0 )"), (',', "COM,"), ('.', "DOT."),
   ('?', "QUE?"), ('/', "SL /"), ('\\', "BSL\\"), ('~', "TLD~"),
   ('=', "EQL="), ('+', "PLS+"), ('\x7b', "LC \x7b"), ('\x7d', "RC \x7d"),
   ('|', "PIP|"), ('<', "LT <"), ('>', "GT >"), (':', "COL:"),
   (';', "SCL;"),
   ('\x27', "SQ \x27"), ('"', "DQ \""), (' ', "SPC ")]

/-- Display labels, `list(symbols.values())`. -/
def wifiLabels : List String := wifiSymbols.map Prod.snd

/-- Password characters, `list(symbols.keys())`. -/
def wifiKeys : List Char := wifiSymbols.map Prod.fst

/-- Python list indexing at a nonnegative in-range index (the only way
the machine below indexes its lists). -/
def pyGet {α : Type} [Inhabited α] (l : List α) (i : Int) : α :=
  l.getD i.toNat default

/-- Symbol cycling on `up` in password entry:
`password[index] = (letter + 1) % len(symbols)` (clock.py line 360). -/
def symCycleUp (letter : Int) : Int :=
  (letter + 1) % (wifiSymbols.length : Int)

/-- Symbol cycling on `down` in password entry:
`password[index] = (letter - 1) % len(symbols)` (clock.py line 363). -/
def symCycleDown (letter : Int) : Int :=
  (letter - 1) % (wifiSymbols.length : Int)

/-- The plaintext password assembled on the preview confirm
(clock.py lines 374-376). -/
def pwString (pwd : List Int) : String :=
  String.mk (pwd.map (fun i => pyGet wifiKeys i))

/-- Control state of the interactive loops.  `wifiPassword` keeps the
loop in its normalized form: the loop-top extension (`password.append`)
has already been applied, so the cursor always points into the buffer.
`crashed` marks an uncaught exception (out-of-range list index or a
timezone missing from the `zones` dict). -/
inductive MState where
  | clock
  | menu (item : Int)
  | flashSetting
  | hourSetting
  | zoneSetting (index : Int)
  | wifiSsid (index : Int)
  | wifiPassword (ssid : String) (password : List Int) (index : Int)
      (done : Bool)
  | ipDisplay (octets : List String) (index : Int)
  | crashed
deriving Repr, DecidableEq

/-- Full machine state: control state, settings, settings file. -/
structure Sys where
  state : MState
  settings : ClockSettings
  file : FileState
deriving Repr, DecidableEq

/-- Observable side effects of one handled event. -/
inductive OutAct where
  | disp (text : String)
  | sleep (seconds : Nat)
  | setBrightness (level : Int)
deriving Repr, DecidableEq

/-- `"On"` / `"Off"` status text of `set_flash`. -/
def statusStr (b : Bool) : String := if b then "On" else "Off"

/-- Menu navigation: `item = (item ± 1) % len(menu_items)`, then the loop
top displays the selected label. -/
def menuMove (sys : Sys) (item delta : Int) : Sys × List OutAct :=
  let item2 := (item + delta) % (menu_items.length : Int)
  (⟨.menu item2, sys.settings, sys.file⟩, [.disp (pyGet menu_items item2)])

/-- Timezone navigation (clock.py lines 287-292): step the index
cyclically and commit the selected zone into the settings immediately. -/
def zoneMove (sys : Sys) (index delta : Int) : Sys × List OutAct :=
  let index2 := (index + delta) % (zoneNames.length : Int)
  let s := { sys.settings with timezone := pyGet zoneValues index2 }
  (⟨.zoneSetting index2, s, sys.file⟩, [.disp (pyGet zoneNames index2)])

/-- SSID navigation (clock.py lines 333-336): wrap the index modulo the
list length, then the loop top displays `wifi[index]`; an out-of-range
access raises, which the machine records as `crashed`. -/
def ssidMove (env : Env) (sys : Sys) (index delta : Int) :
    Sys × List OutAct :=
  let index2 := (index + delta) % (env.wifi.length : Int)
  match env.wifi.get? index2.toNat with
  | none => (⟨.crashed, sys.settings, sys.file⟩, [])
  | some name => (⟨.wifiSsid index2, sys.settings, sys.file⟩, [.disp name])

/-- The nmcli connect phase of `set_wifi` (clock.py lines 379-417): every
path shows one terminal message and dwells 2 seconds; "GOOD" appears
exactly when the profile-add and the activation both return 0. -/
def connectOutputs (env : Env) : List OutAct :=
  match env.addResult with
  | .raised => [.disp "FAIL", .sleep 2]
  | .returned code =>
      if code ≠ 0 then [.disp "FAIL", .sleep 2]
      else
        match env.upResult with
        | .raised => [.disp "FAIL", .sleep 2]
        | .returned code2 =>
            if code2 = 0 then [.disp "GOOD", .sleep 2]
            else [.disp "FAIL", .sleep 2]

/-- Confirm on a menu item (clock.py lines 594-617): dispatch on the
selected label, entering the sub-screen and performing its loop-top
display.  Entering ZONE looks the stored timezone up in the zone list
(`list.index` raises when absent); entering WIFI displays `wifi[0]`
(raises when the scan result is empty). -/
def menuConfirm (env : Env) (sys : Sys) (item : Int) : Sys × List OutAct :=
  match menu_items.get? item.toNat with
  | none => (⟨.crashed, sys.settings, sys.file⟩, [])
  | some name =>
      if name = "FLASH" then
        (⟨.flashSetting, sys.settings, sys.file⟩,
         [.disp ("FLASH  " ++ statusStr sys.settings.flash_colon)])
      else if name = "24H" then
        (⟨.hourSetting, sys.settings, sys.file⟩,
         [.disp (if sys.settings.hour_24 then "24" else "12")])
      else if name = "ZONE" then
        match zoneValues.indexOf? sys.settings.timezone with
        | none => (⟨.crashed, sys.settings, sys.file⟩, [])
        | some i =>
            (⟨.zoneSetting (i : Int), sys.settings, sys.file⟩,
             [.disp (pyGet zoneNames (i : Int))])
      else if name = "WIFI" then
        match env.wifi.get? 0 with
        | none => (⟨.crashed, sys.settings, sys.file⟩, [])
        | some first =>
            (⟨.wifiSsid 0, sys.settings, sys.file⟩, [.disp first])
      else if name = "IP" then
        let octets := (env.wlan0Ip.getD "127.0.0.1").splitOn "."
        (⟨.ipDisplay octets 0, sys.settings, sys.file⟩,
         [.disp (pyGet octets 0)])
      else
        (⟨.menu item, sys.settings, sys.file⟩, [.disp name])

/-- One transition of the machine: handle a single queued event in the
current control state. -/
def step (env : Env) (sys : Sys) (e : Event) : Sys × List OutAct :=
  match sys.state, e with
  | .clock, .up =>
      let s := sys.settings.increase_brightness
      (⟨.clock, s, sys.file⟩, [.setBrightness s.brightness])
  | .clock, .down =>
      let s := sys.settings.decrease_brightness
      (⟨.clock, s, sys.file⟩, [.setBrightness s.brightness])
  | .clock, .confirm =>
      let s := sys.settings.toggle_brightness
      (⟨.clock, s, sys.file⟩, [.setBrightness s.brightness])
  | .clock, .right =>
      (⟨.menu 0, sys.settings, sys.file⟩, [.disp (pyGet menu_items 0)])
  | .clock, .left =>
      (⟨.menu 0, sys.settings, sys.file⟩, [.disp (pyGet menu_items 0)])
  | .menu item, .right => menuMove sys item 1
  | .menu item, .up => menuMove sys item 1
  | .menu item, .left => menuMove sys item (-1)
  | .menu item, .down => menuMove sys item (-1)
  | .menu item, .confirm => menuConfirm env sys item
  | .flashSetting, .confirm =>
      (⟨.clock, sys.settings, sys.settings.save sys.file⟩, [])
  | .flashSetting, _ =>
      let s := { sys.settings with flash_colon := !sys.settings.flash_colon }
      (⟨.flashSetting, s, sys.file⟩,
       [.disp ("FLASH  " ++ statusStr s.flash_colon)])
  | .hourSetting, .confirm =>
      (⟨.clock, sys.settings, sys.settings.save sys.file⟩, [])
  | .hourSetting, _ =>
      let s := { sys.settings with hour_24 := !sys.settings.hour_24 }
      (⟨.hourSetting, s, sys.file⟩,
       [.disp (if s.hour_24 then "24" else "12")])
  | .zoneSetting index, .up => zoneMove sys index 1
  | .zoneSetting index, .right => zoneMove sys index 1
  | .zoneSetting index, .down => zoneMove sys index (-1)
  | .zoneSetting index, .left => zoneMove sys index (-1)
  | .zoneSetting _, .confirm =>
      (⟨.clock, sys.settings, sys.settings.save sys.file⟩, [])
  | .wifiSsid index, .up => ssidMove env sys index 1
  | .wifiSsid index, .right => ssidMove env sys index 1
  | .wifiSsid index, .down => ssidMove env sys index (-1)
  | .wifiSsid index, .left => ssidMove env sys index (-1)
  | .wifiSsid index, .confirm =>
      match env.wifi.get? index.toNat with
      | none => (⟨.crashed, sys.settings, sys.file⟩, [])
      | some ssid =>
          (⟨.wifiPassword ssid [0] 0 false, sys.settings, sys.file⟩,
           [.disp "ENTER PASSWORD", .sleep 2, .disp (pyGet wifiLabels 0)])
  | .wifiPassword ssid pwd index _, .up =>
      let letter := pyGet pwd index
      let pwd2 := pwd.set index.toNat (symCycleUp letter)
      (⟨.wifiPassword ssid pwd2 index false, sys.settings, sys.file⟩,
       [.disp (pyGet wifiLabels (pyGet pwd2 index))])
  | .wifiPassword ssid pwd index _, .down =>
      let letter := pyGet pwd index
      let pwd2 := pwd.set index.toNat (symCycleDown letter)
      (⟨.wifiPassword ssid pwd2 index false, sys.settings, sys.file⟩,
       [.disp (pyGet wifiLabels (pyGet pwd2 index))])
  | .wifiPassword ssid pwd index _, .right =>
      let index2 := min (index + 1) (pwd.length : Int)
      if index2 + 1 > (pwd.length : Int) then
        (⟨.wifiPassword ssid (pwd ++ [0]) index2 false, sys.settings,
          sys.file⟩, [.disp (pyGet wifiLabels 0)])
      else
        (⟨.wifiPassword ssid pwd index2 false, sys.settings, sys.file⟩,
         [.disp (pyGet wifiLabels (pyGet pwd index2))])
  | .wifiPassword ssid pwd index _, .left =>
      let index2 := max 0 (index - 1)
      (⟨.wifiPassword ssid pwd index2 false, sys.settings, sys.file⟩,
       [.disp (pyGet wifiLabels (pyGet pwd index2))])
  | .wifiPassword ssid pwd index false, .confirm =>
      (⟨.wifiPassword ssid pwd index true, sys.settings, sys.file⟩,
       [.disp (pwString pwd)])
  | .wifiPassword _ _ _ true, .confirm =>
      (⟨.clock, sys.settings, sys.file⟩, connectOutputs env)
  | .ipDisplay octets index, .up =>
      let index2 := min (index + 1) ((octets.length : Int) - 1)
      (⟨.ipDisplay octets index2, sys.settings, sys.file⟩,
       [.disp (pyGet octets index2)])
  | .ipDisplay octets index, .right =>
      let index2 := min (index + 1) ((octets.length : Int) - 1)
      (⟨.ipDisplay octets index2, sys.settings, sys.file⟩,
       [.disp (pyGet octets index2)])
  | .ipDisplay octets index, .down =>
      let index2 := max 0 (index - 1)
      (⟨.ipDisplay octets index2, sys.settings, sys.file⟩,
       [.disp (pyGet octets index2)])
  | .ipDisplay octets index, .left =>
      let index2 := max 0 (index - 1)
      (⟨.ipDisplay octets index2, sys.settings, sys.file⟩,
       [.disp (pyGet octets index2)])
  | .ipDisplay _ _, .confirm =>
      (⟨.clock, sys.settings, sys.file⟩, [])
  | .crashed, _ => (⟨.crashed, sys.settings, sys.file⟩, [])

/-- Run the machine over a list of events, one transition each. -/
def run (env : Env) (sys : Sys) (events : List Event) : Sys :=
  events.foldl (fun s e => (step env s e).1) sys

/-! ### Concrete environments and states used in closed statements. -/

/-- An environment with one scanned network and successful nmcli calls. -/
def env0 : Env := ⟨["net"], .returned 0, .returned 0, none⟩

/-- An environment whose Wi-Fi scan found two networks. -/
def env1 : Env := ⟨["alpha", "beta"], .returned 0, .returned 0, none⟩

/-- An environment whose Wi-Fi scan found nothing. -/
def envNoWifi : Env := ⟨[], .returned 0, .returned 0, none⟩

/-- Initial machine state: Clock view, default settings, saved file. -/
def sys0 : Sys := ⟨.clock, defaultSettings, .ok defaultSettings.toData⟩

/-- A settings file storing an out-of-range brightness. -/
def badFile : FileState := .ok ⟨some 99, none, none, none⟩

/-! ### Brightness invariant (C1). -/

theorem increase_brightness_bounds (s : ClockSettings)
    (h0 : 0 ≤ s.brightness) :
    0 ≤ s.increase_brightness.brightness ∧
      s.increase_brightness.brightness ≤ 15 := by
  unfold ClockSettings.increase_brightness
  dsimp only
  split <;> omega

theorem decrease_brightness_bounds (s : ClockSettings)
    (h1 : s.brightness ≤ 15) :
    0 ≤ s.decrease_brightness.brightness ∧
      s.decrease_brightness.brightness ≤ 15 := by
  unfold ClockSettings.decrease_brightness
  dsimp only
  split <;> omega

theorem toggle_brightness_bounds (s : ClockSettings) :
    0 ≤ s.toggle_brightness.brightness ∧
      s.toggle_brightness.brightness ≤ 15 := by
  unfold ClockSettings.toggle_brightness
  split <;> dsimp only <;> omega

theorem load_brightness_bounds (s : ClockSettings) (f : FileState)
    (h0 : 0 ≤ s.brightness) (h1 : s.brightness ≤ 15)
    (hf : fileBrightOk f = true) :
    0 ≤ (s.load f).1.brightness ∧ (s.load f).1.brightness ≤ 15 ∧
      fileBrightOk (s.load f).2 = true := by
  cases f with
  | missing => exact ⟨h0, h1, decide_eq_true ⟨h0, h1⟩⟩
  | malformed => exact ⟨h0, h1, decide_eq_true ⟨h0, h1⟩⟩
  | ok d =>
      cases hd : d.brightness with
      | none =>
          refine ⟨?_, ?_, hf⟩ <;> simp [ClockSettings.load, hd]
      | some b =>
          have hb : 0 ≤ b ∧ b ≤ 15 := by
            simpa [fileBrightOk, hd] using hf
          refine ⟨?_, ?_, hf⟩ <;> simp [ClockSettings.load, hd] <;> omega

theorem brightness_inv_aux (ops : List BrightnessOp) :
    ∀ (s : ClockSettings) (f : FileState),
      0 ≤ s.brightness → s.brightness ≤ 15 → fileBrightOk f = true →
      0 ≤ (ops.foldl applyBrightnessOp (s, f)).1.brightness ∧
        (ops.foldl applyBrightnessOp (s, f)).1.brightness ≤ 15 ∧
        fileBrightOk (ops.foldl applyBrightnessOp (s, f)).2 = true := by
  induction ops with
  | nil => exact fun s f h0 h1 hf => ⟨h0, h1, hf⟩
  | cons op rest ih =>
      intro s f h0 h1 hf
      cases op with
      | inc =>
          exact ih _ f (increase_brightness_bounds s h0).1
            (increase_brightness_bounds s h0).2 hf
      | dec =>
          exact ih _ f (decrease_brightness_bounds s h1).1
            (decrease_brightness_bounds s h1).2 hf
      | toggle =>
          exact ih _ f (toggle_brightness_bounds s).1
            (toggle_brightness_bounds s).2 hf
      | reload =>
          have h := load_brightness_bounds s f h0 h1 hf
          exact ih (s.load f).1 (s.load f).2 h.1 h.2.1 h.2.2

/-- Claim C1, amended: `increase_brightness`, `decrease_brightness` and
the Clock-state confirm toggle clamp brightness into [0,15] with no
wraparound, and reloading the settings file keeps the invariant provided
the file's stored brightness (when present) lies in [0,15]; `load` copies
the stored brightness unclamped, so this proviso on the file is needed. -/
theorem c1_theorem (s : ClockSettings) (f : FileState)
    (ops : List BrightnessOp) (h0 : 0 ≤ s.brightness)
    (h1 : s.brightness ≤ 15) (hf : fileBrightOk f = true) :
    0 ≤ (ops.foldl applyBrightnessOp (s, f)).1.brightness ∧
      (ops.foldl applyBrightnessOp (s, f)).1.brightness ≤ 15 :=
  ⟨(brightness_inv_aux ops s f h0 h1 hf).1,
   (brightness_inv_aux ops s f h0 h1 hf).2.1⟩

/-- Claim C1 counterexample: starting from the in-range default settings,
the single operation "load a settings file storing brightness 99" leaves
brightness at 99, outside [0,15] — `ClockSettings.load` does not clamp. -/
theorem c1_cex :
    0 ≤ defaultSettings.brightness ∧ defaultSettings.brightness ≤ 15 ∧
    ([BrightnessOp.reload].foldl applyBrightnessOp
        (defaultSettings, badFile)).1.brightness = 99 ∧
    ¬ ([BrightnessOp.reload].foldl applyBrightnessOp
        (defaultSettings, badFile)).1.brightness ≤ 15 := by
  decide

theorem c1_witness :
    (0 ≤ defaultSettings.brightness ∧ defaultSettings.brightness ≤ 15 ∧
      fileBrightOk FileState.missing = true) ∧
    (0 ≤ ([BrightnessOp.inc, .inc, .reload, .toggle, .dec].foldl
        applyBrightnessOp (defaultSettings, FileState.missing)).1.brightness ∧
      ([BrightnessOp.inc, .inc, .reload, .toggle, .dec].foldl
        applyBrightnessOp (defaultSettings, FileState.missing)).1.brightness
        ≤ 15) :=
  ⟨⟨by decide, by decide, by decide⟩,
   c1_theorem defaultSettings .missing [.inc, .inc, .reload, .toggle, .dec]
     (by decide) (by decide) (by decide)⟩

/-! ### Scrolling display (C2). -/

theorem padFour_len4 (w : List Char) (h : w.length = 4) : padFour w = w := by
  unfold padFour
  rw [← h, List.take_left]

/-- Claim C2: for a string longer than 4 characters, `display` emits
exactly `len - 3` frame writes; the k-th write is the window
`s[k:k+4]`, in left-to-right order, and the final write is the last 4
characters with no trailing delay (the Bool records whether a scroll
delay follows the write). -/
theorem c2_theorem (s : List Char) (h : 4 < s.length) :
    (displayFrames s).length = s.length - 3 ∧
    (∀ k (hk : k < (displayFrames s).length),
        (displayFrames s).get ⟨k, hk⟩ =
          ((s.drop k).take 4, decide (k < s.length - 4))) ∧
    (displayFrames s).getLast? =
      some ((s.drop (s.length - 4)).take 4, false) := by
  have hne : ¬ s.length ≤ 4 := by omega
  refine ⟨?_, ?_, ?_⟩
  · simp [displayFrames, hne]
    omega
  · intro k hk
    have hk2 : k < s.length - 4 + 1 := by
      simpa [displayFrames, hne] using hk
    simp only [displayFrames, hne, if_false, List.get_eq_getElem,
      List.getElem_map, List.getElem_range]
    rw [padFour_len4]
    simp only [List.length_take, List.length_drop]
    omega
  · rw [List.getLast?_eq_getElem?]
    have hlen : (displayFrames s).length = s.length - 3 := by
      simp [displayFrames, hne]
      omega
    rw [hlen]
    have hidx : s.length - 3 - 1 = s.length - 4 := by omega
    rw [hidx]
    simp only [displayFrames, hne, if_false, List.getElem?_map]
    rw [List.getElem?_range (by omega)]
    simp only [Option.map_some']
    rw [padFour_len4]
    · have : ¬ s.length - 4 < s.length - 4 := by omega
      simp [this]
    · simp only [List.length_take, List.length_drop]
      omega

theorem c2_witness :
    4 < ("HELLO".data).length ∧
    ((displayFrames "HELLO".data).length = ("HELLO".data).length - 3 ∧
      (∀ k (hk : k < (displayFrames "HELLO".data).length),
          (displayFrames "HELLO".data).get ⟨k, hk⟩ =
            ((("HELLO".data).drop k).take 4,
             decide (k < ("HELLO".data).length - 4))) ∧
      (displayFrames "HELLO".data).getLast? =
        some ((("HELLO".data).drop (("HELLO".data).length - 4)).take 4,
          false)) :=
  ⟨by decide, c2_theorem "HELLO".data (by decide)⟩

/-! ### Colon rule and time rendering (C4, C5). -/

/-- Claim C4: the colon flag computed by `display_time` before rendering
equals `(not flash_colon) or (second mod 2 == 0)` for every settings
state and every second. -/
theorem c4_theorem (s : ClockSettings) (hour minute second : Nat) :
    (display_time s hour minute second).1 =
      (!s.flash_colon || (second % 2 == 0)) := by
  unfold display_time
  cases h : s.flash_colon <;> simp [h]

/-- Claim C5: in 12-hour mode the displayed hour maps 0 to 12, 13-23 to
hour minus 12, and leaves 1-12 unchanged; at local time 00:05:30 with
`hour_24 = false` the rendered text is "1205" (hour space-padded,
minute zero-padded). -/
theorem c5_theorem (h : Nat) (hlt : h < 24) :
    hour_for false h =
      (if h = 0 then 12 else if 13 ≤ h then h - 12 else h) ∧
    (display_time defaultSettings 0 5 30).2 = "1205" := by
  constructor
  · interval_cases h <;> decide
  · decide

theorem c5_witness :
    (0 : Nat) < 24 ∧
    (hour_for false 0 =
        (if (0 : Nat) = 0 then 12 else if 13 ≤ (0 : Nat) then 0 - 12 else 0) ∧
      (display_time defaultSettings 0 5 30).2 = "1205") :=
  ⟨by decide, c5_theorem 0 (by decide)⟩

/-! ### Settings-file recovery (C9). -/

/-- Claim C9: constructing the settings when the file is missing writes
the defaults to a fresh file, and when the file is malformed all four
fields end up at their defaults and a fresh valid file is written; both
happen during `ClockSettings.__init__`, before the first render. -/
theorem c9_theorem :
    ClockSettings.init .missing =
      (defaultSettings, .ok defaultSettings.toData) ∧
    ClockSettings.init .malformed =
      (defaultSettings, .ok defaultSettings.toData) ∧
    defaultSettings.toData =
      ⟨some 0, some "America/Chicago", some false, some true⟩ := by
  decide

/-! ### Menu flow for the FLASH setting (C3). -/

/-- Claim C3 counterexample: from the Clock state with the default
settings, the event sequence [right, confirm] enters the FLASH sub-screen
but leaves `flash_colon` unchanged (still true, not flipped), and the
subsequent confirm returns to Clock having persisted the unchanged value.
In the source, `set_flash` flips the flag only on a directional event. -/
theorem c3_cex :
    (run env0 sys0 [.right, .confirm]).state = .flashSetting ∧
    (run env0 sys0 [.right, .confirm]).settings.flash_colon = true ∧
    defaultSettings.flash_colon = true ∧
    (run env0 sys0 [.right, .confirm, .confirm]).state = .clock ∧
    (run env0 sys0 [.right, .confirm, .confirm]).settings.flash_colon =
      true := by
  decide

/-- Claim C3, amended: from the Clock state, [right, confirm] enters the
FLASH sub-screen without changing `flash_colon`; a directional event
there flips it, and a subsequent confirm persists the settings and
returns to Clock — so [right, confirm, right, confirm] flips
`flash_colon`, ends in Clock, and the settings file reflects the new
value. -/
theorem c3_theorem (env : Env) (s : ClockSettings) (f : FileState) :
    (run env ⟨.clock, s, f⟩ [.right, .confirm, .right, .confirm]).state =
      .clock ∧
    (run env ⟨.clock, s, f⟩
        [.right, .confirm, .right, .confirm]).settings.flash_colon =
      !s.flash_colon ∧
    (run env ⟨.clock, s, f⟩ [.right, .confirm, .right, .confirm]).file =
      .ok ⟨some s.brightness, some s.timezone, some s.hour_24,
           some (!s.flash_colon)⟩ :=
  ⟨rfl, rfl, rfl⟩

/-! ### Timezone cycling (C6). -/

theorem settings_eta (s : ClockSettings) (v : String)
    (h : s.timezone = v) : { s with timezone := v } = s := by
  cases s
  cases h
  rfl

/-- Claim C6: from any zone-screen selection index (with the settings
holding the zone committed at that index, as `set_timezone` establishes
on entry), seven "next" transitions return both the selection and the
committed `Settings.timezone` to their original values, and "previous"
after "next" is the identity. -/
theorem c6_theorem (env : Env) (s : ClockSettings) (f : FileState)
    (idx : Int) (h0 : 0 ≤ idx) (h1 : idx < (zoneNames.length : Int))
    (htz : s.timezone = pyGet zoneValues idx) :
    run env ⟨.zoneSetting idx, s, f⟩ (List.replicate 7 .up) =
      ⟨.zoneSetting idx, s, f⟩ ∧
    run env ⟨.zoneSetting idx, s, f⟩ [.up, .down] =
      ⟨.zoneSetting idx, s, f⟩ := by
  have h1' : idx < 7 := h1
  constructor <;>
    · interval_cases idx <;>
      · conv_rhs => rw [← settings_eta s _ htz]
        rfl

theorem c6_witness :
    ((0 : Int) ≤ 1 ∧ (1 : Int) < (zoneNames.length : Int) ∧
      defaultSettings.timezone = pyGet zoneValues 1) ∧
    (run env0 ⟨.zoneSetting 1, defaultSettings, .missing⟩
        (List.replicate 7 .up) =
        ⟨.zoneSetting 1, defaultSettings, .missing⟩ ∧
      run env0 ⟨.zoneSetting 1, defaultSettings, .missing⟩ [.up, .down] =
        ⟨.zoneSetting 1, defaultSettings, .missing⟩) :=
  ⟨⟨by decide, by decide, by decide⟩,
   c6_theorem env0 defaultSettings .missing 1 (by decide) (by decide)
     (by decide)⟩

/-! ### Password symbol cycling (C7). -/

theorem symCycleUp_iterate (n : Nat) (x : Int) (h0 : 0 ≤ x)
    (h1 : x < 94) : symCycleUp^[n] x = (x + n) % 94 := by
  have hK : (wifiSymbols.length : Int) = 94 := rfl
  induction n with
  | zero =>
      simp only [Function.iterate_zero, id_eq, Nat.cast_zero, add_zero]
      omega
  | succ k ih =>
      rw [Function.iterate_succ_apply', ih]
      unfold symCycleUp
      rw [hK]
      omega

/-- Claim C7: cycling "up" at a fixed cursor position is cyclic with
period the symbol-table size (94): from any in-range symbol index,
applying the up update 94 times returns the symbol index to its original
value, and the "down" update wraps modularly below zero. -/
theorem c7_theorem (x : Int) (h0 : 0 ≤ x)
    (h1 : x < (wifiSymbols.length : Int)) :
    symCycleUp^[wifiSymbols.length] x = x ∧
    symCycleDown 0 = (wifiSymbols.length : Int) - 1 := by
  have hK : (wifiSymbols.length : Int) = 94 := rfl
  rw [hK] at h1
  constructor
  · have hlen : wifiSymbols.length = 94 := rfl
    rw [hlen, symCycleUp_iterate 94 x h0 h1]
    omega
  · decide

theorem c7_witness :
    ((0 : Int) ≤ 0 ∧ (0 : Int) < (wifiSymbols.length : Int)) ∧
    (symCycleUp^[wifiSymbols.length] (0 : Int) = 0 ∧
      symCycleDown 0 = (wifiSymbols.length : Int) - 1) :=
  ⟨⟨by decide, by decide⟩, c7_theorem 0 (by decide) (by decide)⟩

/-! ### Wi-Fi connect outcomes (C8). -/

theorem connectOutputs_cases (env : Env) :
    (connectOutputs env = [.disp "GOOD", .sleep 2] ∨
      connectOutputs env = [.disp "FAIL", .sleep 2]) ∧
    (connectOutputs env = [.disp "GOOD", .sleep 2] ↔
      env.addResult = .returned 0 ∧ env.upResult = .returned 0) := by
  obtain ⟨w, a, u, ip⟩ := env
  have hne : ([OutAct.disp "FAIL", OutAct.sleep 2] : List OutAct) ≠
      [OutAct.disp "GOOD", OutAct.sleep 2] := by decide
  cases a with
  | raised => simp [connectOutputs, hne]
  | returned c =>
      by_cases hc : c = 0
      · subst hc
        cases u with
        | raised => simp [connectOutputs, hne]
        | returned c2 =>
            by_cases hc2 : c2 = 0
            · subst hc2
              simp [connectOutputs]
            · simp [connectOutputs, hne, hc2]
      · simp [connectOutputs, hne, hc]

/-- Claim C8: once the password is committed, the confirm that finalizes
it runs the connect phase and returns control to the Clock state; the
emitted result is exactly one of "GOOD" and "FAIL", each held for the
2-second dwell, and "GOOD" appears precisely when both the profile-add
and the activation return exit code 0 (every other path, including a
raising call, shows "FAIL"); there is no retry. -/
theorem c8_theorem (env : Env) (s : ClockSettings) (f : FileState)
    (ssid : String) (pwd : List Int) (i : Int) :
    (step env ⟨.wifiPassword ssid pwd i true, s, f⟩ .confirm).1 =
      ⟨.clock, s, f⟩ ∧
    ((step env ⟨.wifiPassword ssid pwd i true, s, f⟩ .confirm).2 =
        [.disp "GOOD", .sleep 2] ∨
      (step env ⟨.wifiPassword ssid pwd i true, s, f⟩ .confirm).2 =
        [.disp "FAIL", .sleep 2]) ∧
    ((step env ⟨.wifiPassword ssid pwd i true, s, f⟩ .confirm).2 =
        [.disp "GOOD", .sleep 2] ↔
      env.addResult = .returned 0 ∧ env.upResult = .returned 0) := by
  have hstep : (step env ⟨.wifiPassword ssid pwd i true, s, f⟩
      .confirm).2 = connectOutputs env := rfl
  exact ⟨rfl, hstep ▸ (connectOutputs_cases env).1,
    hstep ▸ (connectOutputs_cases env).2⟩

/-! ### SSID selection bounds (C10). -/

theorem ssidMove_bounds (env : Env) (s : ClockSettings) (f : FileState)
    (idx delta : Int) (hw : env.wifi ≠ []) :
    ∃ idx2 : Int,
      (ssidMove env ⟨.wifiSsid idx, s, f⟩ idx delta).1 =
        ⟨.wifiSsid idx2, s, f⟩ ∧
      0 ≤ idx2 ∧ idx2 < (env.wifi.length : Int) := by
  have hlen : 0 < env.wifi.length := List.length_pos.mpr hw
  have hL0 : (0 : Int) < (env.wifi.length : Int) := by exact_mod_cast hlen
  refine ⟨(idx + delta) % (env.wifi.length : Int), ?_,
    Int.emod_nonneg _ (by omega), Int.emod_lt_of_pos _ hL0⟩
  have h2 : 0 ≤ (idx + delta) % (env.wifi.length : Int) :=
    Int.emod_nonneg _ (by omega)
  have h3 : (idx + delta) % (env.wifi.length : Int) <
      (env.wifi.length : Int) := Int.emod_lt_of_pos _ hL0
  have hn : ((idx + delta) % (env.wifi.length : Int)).toNat <
      env.wifi.length := by omega
  have hget := List.getElem?_eq_getElem hn
  simp [ssidMove, hget]

theorem ssid_inv (env : Env) (hw : env.wifi ≠ []) (events : List Event) :
    ∀ (s : ClockSettings) (f : FileState) (idx : Int),
      (∀ e ∈ events, e ≠ Event.confirm) →
      0 ≤ idx → idx < (env.wifi.length : Int) →
      ∃ idx2 : Int,
        run env ⟨.wifiSsid idx, s, f⟩ events = ⟨.wifiSsid idx2, s, f⟩ ∧
        0 ≤ idx2 ∧ idx2 < (env.wifi.length : Int) := by
  induction events with
  | nil => exact fun s f idx _ h0 h1 => ⟨idx, rfl, h0, h1⟩
  | cons e rest ih =>
      intro s f idx hdir h0 h1
      have he : e ≠ Event.confirm := hdir e (List.mem_cons_self e rest)
      have hrest : ∀ x ∈ rest, x ≠ Event.confirm :=
        fun x hx => hdir x (List.mem_cons_of_mem e hx)
      have hrun : run env ⟨.wifiSsid idx, s, f⟩ (e :: rest) =
          run env (step env ⟨.wifiSsid idx, s, f⟩ e).1 rest := rfl
      rw [hrun]
      cases e with
      | confirm => exact absurd rfl he
      | up =>
          obtain ⟨idx2, hmv, h2, h3⟩ := ssidMove_bounds env s f idx 1 hw
          rw [show (step env ⟨.wifiSsid idx, s, f⟩ .up).1 =
            (ssidMove env ⟨.wifiSsid idx, s, f⟩ idx 1).1 from rfl, hmv]
          exact ih _ _ _ hrest h2 h3
      | right =>
          obtain ⟨idx2, hmv, h2, h3⟩ := ssidMove_bounds env s f idx 1 hw
          rw [show (step env ⟨.wifiSsid idx, s, f⟩ .right).1 =
            (ssidMove env ⟨.wifiSsid idx, s, f⟩ idx 1).1 from rfl, hmv]
          exact ih _ _ _ hrest h2 h3
      | down =>
          obtain ⟨idx2, hmv, h2, h3⟩ := ssidMove_bounds env s f idx (-1) hw
          rw [show (step env ⟨.wifiSsid idx, s, f⟩ .down).1 =
            (ssidMove env ⟨.wifiSsid idx, s, f⟩ idx (-1)).1 from rfl, hmv]
          exact ih _ _ _ hrest h2 h3
      | left =>
          obtain ⟨idx2, hmv, h2, h3⟩ := ssidMove_bounds env s f idx (-1) hw
          rw [show (step env ⟨.wifiSsid idx, s, f⟩ .left).1 =
            (ssidMove env ⟨.wifiSsid idx, s, f⟩ idx (-1)).1 from rfl, hmv]
          exact ih _ _ _ hrest h2 h3

/-- Claim C10: when the scan result is nonempty, the SSID-selection index
stays a valid in-bounds index under every sequence of directional events
(modular wrap); when the scan result is empty, the very first display
step of the Wi-Fi screen indexes out of bounds (`wifi[0]` on an empty
list) and the machine crashes, so non-emptiness of the scan result is a
required precondition. -/
theorem c10_theorem (env : Env) (s : ClockSettings) (f : FileState)
    (events : List Event) (hw : env.wifi ≠ [])
    (hdir : ∀ e ∈ events, e ≠ Event.confirm) :
    (∃ idx2 : Int,
        run env ⟨.wifiSsid 0, s, f⟩ events = ⟨.wifiSsid idx2, s, f⟩ ∧
        0 ≤ idx2 ∧ idx2 < (env.wifi.length : Int)) ∧
    (∀ (env2 : Env) (s2 : ClockSettings) (f2 : FileState),
        env2.wifi = [] →
        env2.wifi.get? 0 = none ∧
        step env2 ⟨.menu 3, s2, f2⟩ .confirm = (⟨.crashed, s2, f2⟩, [])) := by
  constructor
  · exact ssid_inv env hw events s f 0 hdir le_rfl
      (by exact_mod_cast List.length_pos.mpr hw)
  · intro env2 s2 f2 h2
    obtain ⟨w, a, u, ip⟩ := env2
    dsimp only at h2
    subst h2
    exact ⟨rfl, rfl⟩

theorem c10_witness :
    (env1.wifi ≠ [] ∧
      ∀ e ∈ [Event.up, .up, .down, .left], e ≠ Event.confirm) ∧
    ((∃ idx2 : Int,
        run env1 ⟨.wifiSsid 0, defaultSettings, .missing⟩
            [Event.up, .up, .down, .left] =
          ⟨.wifiSsid idx2, defaultSettings, .missing⟩ ∧
        0 ≤ idx2 ∧ idx2 < (env1.wifi.length : Int)) ∧
      (∀ (env2 : Env) (s2 : ClockSettings) (f2 : FileState),
          env2.wifi = [] →
          env2.wifi.get? 0 = none ∧
          step env2 ⟨.menu 3, s2, f2⟩ .confirm =
            (⟨.crashed, s2, f2⟩, []))) :=
  ⟨⟨by decide, by decide⟩,
   c10_theorem env1 defaultSettings .missing [.up, .up, .down, .left]
     (by decide) (by decide)⟩

end Clock
